import Mathlib

/-!
Shallow embedding of the browser-in-browser backend (`src/backend/main.py`):
the session state, the input-translation handlers, the navigation guards,
the connection registry, the screenshot broadcast loop and the shutdown
handler, together with theorems about their behavior.

Conventions: Python floats are modelled as `ℚ`; Playwright/JS calls issued
by a handler are recorded as an explicit `EngineAction` trace; a handler's
JSON response is a `Resp`; viewer websockets are identified by `Nat` ids and
the `active_connections` set is a `Finset Nat`.
-/

namespace BrowserBackend

/-- Focus kind of `document.activeElement`, as far as the `/keyboard`
handler's JS check distinguishes it: INPUT tag, TEXTAREA tag,
`contentEditable === 'true'`, any other element, or no active element. -/
inductive FocusKind
  | inputEl
  | textareaEl
  | contentEditable
  | otherEl
  | noActive
deriving DecidableEq, Repr

/-- One entry of `window.history`: its URL and the identity of its
`history.state` object (a `Nat` standing for object identity, so that the
`!==` comparison in the `/forward` check can be modelled; distinct numbers
model distinct state objects). -/
structure HistoryEntry where
  url : String
  stateId : Nat
deriving DecidableEq, Repr

/-- The page state the handlers in `main.py` observe and mutate: the
navigation history with the current position, and the focused element. -/
structure Page where
  entries : List HistoryEntry
  idx : Nat
  focused : FocusKind
deriving DecidableEq, Repr

/-- Playwright / JS calls a command handler can issue against the page. -/
inductive EngineAction
  | mouseMove (px py : ℚ)
  | mouseClick (px py : ℚ)
  | evalFocusAt (px py : ℚ)
  | evalActiveElementCheck
  | keyPress (key : String)
  | scrollBy (dxPix dyPix : ℚ)
  | pageGoto (url : String) (waitNetworkIdle : Bool)
  | evalHistoryLength
  | evalForwardCheck
  | pageGoBack (waitNetworkIdle : Bool)
  | pageGoForward (waitNetworkIdle : Bool)
deriving DecidableEq, Repr

/-- JSON responses of the command handlers: `{success: true}`,
`{success: true, focused: b}`, a soft failure `{success: false, error: e}`
returned with a normal status, or an `HTTPException`. -/
inductive Resp
  | ok
  | okFocused (focused : Bool)
  | softFail (error : String)
  | httpError (status : Nat) (detail : String)
deriving DecidableEq, Repr

/-- Result of running one command handler: its JSON response, the engine
calls it issued in order, and the page state it leaves behind. -/
structure HandlerResult where
  resp : Resp
  actions : List EngineAction
  page : Option Page
deriving DecidableEq, Repr

/-- `hover_coordinate` (`POST /hover`): 500 when the page is uninitialized,
otherwise `page.mouse.move(payload.x * 1280, payload.y * 800)` and
`{success: true}`. -/
def hover_coordinate (page : Option Page) (x y : ℚ) : HandlerResult :=
  match page with
  | none => ⟨.httpError 500 "Page not initialized", [], none⟩
  | some p => ⟨.ok, [.mouseMove (x * 1280) (y * 800)], some p⟩

/-- `click_coordinate` (`POST /click`): `page.mouse.click(x * 1280, y * 800)`,
then one JS round-trip that looks up `document.elementFromPoint` at the same
pixel, focuses the element when present and returns whether one was found.
`elemAtPoint` is the DOM's answer at that pixel: the focus kind of the
topmost element there, if any. -/
def click_coordinate (page : Option Page) (x y : ℚ) (elemAtPoint : Option FocusKind) :
    HandlerResult :=
  match page with
  | none => ⟨.httpError 500 "Page not initialized", [], none⟩
  | some p =>
    match elemAtPoint with
    | some k =>
        ⟨.okFocused true,
          [.mouseClick (x * 1280) (y * 800), .evalFocusAt (x * 1280) (y * 800)],
          some { p with focused := k }⟩
    | none =>
        ⟨.okFocused false,
          [.mouseClick (x * 1280) (y * 800), .evalFocusAt (x * 1280) (y * 800)],
          some p⟩

/-- `scroll_page` (`POST /scroll`): `window.scrollBy(dx * 1280, dy * 800)`. -/
def scroll_page (page : Option Page) (dx dy : ℚ) : HandlerResult :=
  match page with
  | none => ⟨.httpError 500 "Page not initialized", [], none⟩
  | some p => ⟨.ok, [.scrollBy (dx * 1280) (dy * 800)], some p⟩

/-- The `/keyboard` handler's focus check: `document.activeElement` counts as
input-like when its tag is INPUT or TEXTAREA or it is contentEditable. -/
def isInputLike : FocusKind → Bool
  | .inputEl => true
  | .textareaEl => true
  | .contentEditable => true
  | .otherEl => false
  | .noActive => false

/-- `type_keys` (`POST /keyboard`): evaluates the active-element check; when
no input-like element is focused, returns the soft failure
`{success: false, error: "No input element is focused"}` without pressing any
key; otherwise dispatches exactly one `keyboard.press(payload.key)`. -/
def type_keys (page : Option Page) (key : String) : HandlerResult :=
  match page with
  | none => ⟨.httpError 500 "Page not initialized", [], none⟩
  | some p =>
    if isInputLike p.focused then
      ⟨.ok, [.evalActiveElementCheck, .keyPress key], some p⟩
    else
      ⟨.softFail "No input element is focused", [.evalActiveElementCheck], some p⟩

/-- Number of key presses dispatched in a trace of engine calls. -/
def keyPressCount (acts : List EngineAction) : Nat :=
  acts.countP fun a => match a with | .keyPress _ => true | _ => false

/-- `goto_url` (`POST /goto`): `page.goto(url, wait_until='networkidle')`;
the new navigation replaces any forward entries and appends to the history. -/
def goto_url (page : Option Page) (url : String) (newStateId : Nat) : HandlerResult :=
  match page with
  | none => ⟨.httpError 500 "Page not initialized", [], none⟩
  | some p =>
      let kept := p.entries.take (p.idx + 1)
      ⟨.ok, [.pageGoto url true],
        some { entries := kept ++ [HistoryEntry.mk url newStateId],
               idx := kept.length, focused := p.focused }⟩

/-- Playwright `page.go_back`: moves one entry back in history when a
previous entry exists, otherwise leaves the page unchanged. -/
def pageHistoryBack (p : Page) : Page :=
  if p.idx = 0 then p else { p with idx := p.idx - 1 }

/-- Playwright `page.go_forward` / JS `window.history.forward()`: moves one
entry forward when a forward entry exists, otherwise leaves the page
unchanged. -/
def historyForward (p : Page) : Page :=
  if p.idx + 1 < p.entries.length then { p with idx := p.idx + 1 } else p

/-- `go_back` (`POST /back`): evaluates `window.history.length > 1`; when the
history has at most one entry, returns the soft failure
`{success: false, error: "No previous page in history"}` without navigating;
otherwise `page.go_back(wait_until='networkidle')`. -/
def go_back (page : Option Page) : HandlerResult :=
  match page with
  | none => ⟨.httpError 500 "Page not initialized", [], none⟩
  | some p =>
    if 1 < p.entries.length then
      ⟨.ok, [.evalHistoryLength, .pageGoBack true], some (pageHistoryBack p)⟩
    else
      ⟨.softFail "No previous page in history", [.evalHistoryLength], some p⟩

/-- `window.history.state` of the page's current entry (`none` when the
index is out of range). -/
def currentHistoryState (p : Page) : Option Nat :=
  (p.entries.get? p.idx).map HistoryEntry.stateId

/-- The `/forward` availability check exactly as the source writes it:
`const current = window.history.state;
 return window.history.forward(), window.history.state !== current;`
— it invokes `history.forward()` while evaluating availability, and returns
the check's boolean together with the page as the check leaves it. -/
def forwardCheckJS (p : Page) : Bool × Page :=
  let current := currentHistoryState p
  let p1 := historyForward p
  (decide (currentHistoryState p1 ≠ current), p1)

/-- `go_forward` (`POST /forward`): runs `forwardCheckJS`; when the check
reports no forward entry, returns the soft failure
`{success: false, error: "No next page in history"}`; otherwise additionally
calls `page.go_forward(wait_until='networkidle')`. Either way the page is
left as the check (and, in the success branch, the navigation) leaves it. -/
def go_forward (page : Option Page) : HandlerResult :=
  match page with
  | none => ⟨.httpError 500 "Page not initialized", [], none⟩
  | some p =>
    let c := forwardCheckJS p
    if c.1 then
      ⟨.ok, [.evalForwardCheck, .pageGoForward true], some (historyForward c.2)⟩
    else
      ⟨.softFail "No next page in history", [.evalForwardCheck], some c.2⟩

/-- The page right after `init_browser`: a single `about:blank` entry and no
focused element. -/
def blankPage : Page :=
  { entries := [⟨"about:blank", 0⟩], idx := 0, focused := .noActive }

/-! ## Connection registry

`state.active_connections` is a Python `set` of websockets; we identify
websockets by `Nat` ids and model the set as a `Finset Nat`. The source
removes connections from it in three places, with two distinct idioms. -/

/-- Python `set.remove`: removes the element, raising `KeyError` (modelled
as `none`) when it is absent. -/
def pySetRemove (ws : Nat) (conns : Finset Nat) : Option (Finset Nat) :=
  if ws ∈ conns then some (conns.erase ws) else none

/-- The guarded unregister idiom used in `screenshot_loop`'s exception
handler and in `websocket_screenshot`'s generic exception handler:
`if websocket in state.active_connections:
     state.active_connections.remove(websocket)`. -/
def guardedUnregister (ws : Nat) (conns : Finset Nat) : Option (Finset Nat) :=
  if ws ∈ conns then pySetRemove ws conns else some conns

/-- The unregister in `websocket_screenshot`'s `WebSocketDisconnect` handler:
a bare `state.active_connections.remove(websocket)` with no membership
guard. -/
def disconnectUnregister (ws : Nat) (conns : Finset Nat) : Option (Finset Nat) :=
  pySetRemove ws conns

/-! ## Screenshot loop as a run over iteration outcomes

`screenshot_loop` is `while True`: check membership, `page.screenshot`,
`websocket.send_bytes`, `asyncio.sleep(0.03)`, all wrapped in one
`try/except Exception` whose handler does a guarded unregister and falls out
of the loop. `screenshot_loop_run` replays it against a list of per-iteration
engine outcomes; the registry is fixed apart from the loop's own
exception-handler removal. -/

/-- Outcome of one iteration's engine calls: both the capture and the send
succeed, or the capture raises, or the send raises. -/
inductive IterOutcome
  | ok
  | captureRaises
  | sendRaises
deriving DecidableEq, Repr

/-- Observable events of a `screenshot_loop` run: a frame capture
(`page.screenshot(type='jpeg', quality=70)`), a completed frame send, and
the fixed inter-iteration sleep. -/
inductive LoopEvent
  | capture
  | sendFrame
  | sleepFor (seconds : ℚ)
deriving DecidableEq, Repr

/-- How a `screenshot_loop` run ended. -/
inductive LoopExit
  | stillRunning
  | exitedByCheck
  | exitedByException
deriving DecidableEq, Repr

/-- The fixed inter-iteration pause: `asyncio.sleep(0.03)` (seconds). -/
def sleepInterval : ℚ := 3 / 100

/-- Result of replaying a `screenshot_loop` run: the registry it leaves
behind, its event trace, and how (whether) it ended. -/
structure LoopRun where
  conns : Finset Nat
  events : List LoopEvent
  exit : LoopExit
deriving DecidableEq

/-- Replay of `screenshot_loop` for connection `ws` against registry
`conns`, one iteration per entry of the outcome list: exit at the top when
`ws` is not in the registry; on an engine exception run the guarded
unregister and exit; otherwise capture, send, sleep and continue. -/
def screenshot_loop_run (ws : Nat) (conns : Finset Nat) :
    List IterOutcome → LoopRun
  | [] => ⟨conns, [], .stillRunning⟩
  | o :: rest =>
    if ws ∉ conns then ⟨conns, [], .exitedByCheck⟩
    else
      match o with
      | .captureRaises =>
          ⟨(guardedUnregister ws conns).getD conns, [.capture], .exitedByException⟩
      | .sendRaises =>
          ⟨(guardedUnregister ws conns).getD conns, [.capture], .exitedByException⟩
      | .ok =>
          let r := screenshot_loop_run ws conns rest
          ⟨r.conns, .capture :: .sendFrame :: .sleepFor sleepInterval :: r.events, r.exit⟩

/-! ## Broadcaster loop as a transition system

For the temporal claim about unregistration we refine one iteration into its
suspension points: the membership check, the capture, the send and the
sleep, with an environment step that may remove the connection from the
registry between any two of them (a websocket is registered only once, at
accept, so registry membership of a given connection only ever goes from
`true` to `false`). -/

/-- Program counter inside one `screenshot_loop` iteration. -/
inductive LoopPC
  | check
  | capture
  | send
  | sleep
  | exited
deriving DecidableEq, Repr

/-- State of one broadcaster loop: its program counter, whether its
connection is still in `active_connections`, and how many frame sends have
completed after the connection left the registry. -/
structure BroadcastState where
  pc : LoopPC
  member : Bool
  sendsAfterRemoval : Nat
deriving DecidableEq, Repr

/-- Program transitions of `screenshot_loop`: the check at the top of the
loop continues exactly when the connection is in the registry and breaks
otherwise; capture, send and sleep advance in order, a completed send being
counted when the connection is no longer registered. -/
inductive LoopStep : BroadcastState → BroadcastState → Prop
  | checkContinue (s : BroadcastState) : s.pc = .check → s.member = true →
      LoopStep s { s with pc := .capture }
  | checkExit (s : BroadcastState) : s.pc = .check → s.member = false →
      LoopStep s { s with pc := .exited }
  | captureStep (s : BroadcastState) : s.pc = .capture →
      LoopStep s { s with pc := .send }
  | sendStep (s : BroadcastState) : s.pc = .send →
      LoopStep s
        { s with
          pc := .sleep
          sendsAfterRemoval := s.sendsAfterRemoval + (if s.member then 0 else 1) }
  | sleepStep (s : BroadcastState) : s.pc = .sleep →
      LoopStep s { s with pc := .check }

/-- A step of the whole system: the loop advances, or another task removes
the connection from the registry. -/
inductive SysStep : BroadcastState → BroadcastState → Prop
  | loop {s t : BroadcastState} : LoopStep s t → SysStep s t
  | unregister (s : BroadcastState) : SysStep s { s with member := false }

/-- The broadcaster's initial state: at the membership check, registered,
no send after removal. -/
def broadcastInit : BroadcastState :=
  { pc := .check, member := true, sendsAfterRemoval := 0 }

/-- States a broadcaster loop can reach from its initial state under loop
and environment steps. -/
def ReachableB (s : BroadcastState) : Prop :=
  Relation.ReflTransGen SysStep broadcastInit s

/-- Inductive invariant of the broadcaster system. -/
def BroadcastInv (s : BroadcastState) : Prop :=
  s.sendsAfterRemoval ≤ 1 ∧
  (s.member = true → s.sendsAfterRemoval = 0) ∧
  (s.member = false → (s.pc = .capture ∨ s.pc = .send) → s.sendsAfterRemoval = 0)

/-! ## Session shutdown (`shutdown_event`) -/

/-- The resources `init_browser` acquires. -/
inductive Res
  | playwrightR
  | browserR
  | contextR
  | pageR
deriving DecidableEq, Repr

/-- Acquisition order in `init_browser`: the playwright engine handle, the
browser, the context, the page. -/
def acquisitionOrder : List Res :=
  [.playwrightR, .browserR, .contextR, .pageR]

/-- Release calls `shutdown_event` could issue. -/
inductive TeardownAction
  | closeContext
  | closeBrowser
  | stopPlaywright
  | closePage
deriving DecidableEq, Repr

/-- The resource a release call operates on. -/
def resOf : TeardownAction → Res
  | .closeContext => .contextR
  | .closeBrowser => .browserR
  | .stopPlaywright => .playwrightR
  | .closePage => .pageR

/-- The `web_appState` dataclass as `shutdown_event` sees it: which handles
are non-`None`, plus the live connection set. -/
structure web_appState where
  playwright : Bool
  browser : Bool
  context : Bool
  page : Option Page
  active_connections : Finset Nat
deriving DecidableEq

/-- Whether the handle for a resource is present in the state. -/
def hasRes (s : web_appState) : Res → Bool
  | .playwrightR => s.playwright
  | .browserR => s.browser
  | .contextR => s.context
  | .pageR => s.page.isSome

/-- `shutdown_event`: `if state.context: await state.context.close()`, then
`if state.browser: await state.browser.close()`, then
`if state.playwright: await state.playwright.stop()`. It mutates no field of
`state` and issues no release call for an absent handle. -/
def shutdown_event (s : web_appState) : web_appState × List TeardownAction :=
  (s, (if s.context then [TeardownAction.closeContext] else []) ++
      (if s.browser then [TeardownAction.closeBrowser] else []) ++
      (if s.playwright then [TeardownAction.stopPlaywright] else []))

/-- A fully initialized `web_appState` (all four handles present). -/
def fullState : web_appState :=
  { playwright := true, browser := true, context := true,
    page := some blankPage, active_connections := ∅ }

/-- Two-entry history with distinct `history.state` objects, positioned at
the first entry, so a forward entry exists. -/
def forwardPage : Page :=
  { entries := [⟨"https://a.example/", 0⟩, ⟨"https://b.example/", 1⟩], idx := 0,
    focused := .otherEl }

/-- Three-entry history positioned at the first entry. -/
def threeEntryPage : Page :=
  { entries :=
      [⟨"https://a.example/", 0⟩, ⟨"https://b.example/", 1⟩, ⟨"https://c.example/", 2⟩],
    idx := 0, focused := .otherEl }

/-- A page whose focused element is a text input. -/
def inputPage : Page :=
  { entries := [⟨"about:blank", 0⟩], idx := 0, focused := .inputEl }

/-! ## Theorems -/

/-- The broadcaster invariant holds initially. -/
theorem broadcastInv_init : BroadcastInv broadcastInit :=
  ⟨Nat.zero_le _, fun _ => rfl, fun _ _ => rfl⟩

/-- The broadcaster invariant is preserved by every system step. -/
theorem broadcastInv_preserved {s t : BroadcastState} (h : BroadcastInv s)
    (st : SysStep s t) : BroadcastInv t := by
  obtain ⟨h1, h2, h3⟩ := h
  cases st with
  | unregister =>
    refine ⟨h1, by simp, ?_⟩
    intro _ hpc2
    cases hsm : s.member with
    | true => exact h2 hsm
    | false => exact h3 hsm hpc2
  | loop ls =>
    cases ls with
    | checkContinue hpc hm =>
      refine ⟨h1, fun h => h2 h, ?_⟩
      intro hm2 _
      simp [hm] at hm2
    | checkExit hpc hm =>
      refine ⟨h1, fun h => h2 h, ?_⟩
      intro _ hpc2
      simp at hpc2
    | captureStep hpc =>
      refine ⟨h1, fun h => h2 h, ?_⟩
      intro hm _
      exact h3 hm (Or.inl hpc)
    | sendStep hpc =>
      cases hsm : s.member with
      | true =>
        have h0 := h2 hsm
        refine ⟨by simp [hsm, h0], fun _ => by simp [hsm, h0], ?_⟩
        intro _ hpc2
        simp at hpc2
      | false =>
        have h0 := h3 hsm (Or.inr hpc)
        refine ⟨by simp [hsm, h0], by simp [hsm], ?_⟩
        intro _ hpc2
        simp at hpc2
    | sleepStep hpc =>
      refine ⟨h1, fun h => h2 h, ?_⟩
      intro _ hpc2
      simp at hpc2

/-- Every reachable broadcaster state satisfies the invariant. -/
theorem broadcastInv_reachable (s : BroadcastState) (h : ReachableB s) :
    BroadcastInv s := by
  replace h : Relation.ReflTransGen SysStep broadcastInit s := h
  induction h with
  | refl => exact broadcastInv_init
  | tail _ st ih => exact broadcastInv_preserved ih st

/-- C1. The claim says the `/forward` availability check is a pure read of
navigation state. The code's check evaluates
`return window.history.forward(), window.history.state !== current`, which
navigates forward as part of checking: on a two-entry history at the first
entry the check itself moves the index from 0 to 1, and a full
`go_forward` on a three-entry history at the first entry ends at index 2,
skipping an entry. This theorem evaluates the code at that failing input. -/
theorem forward_check_mutates_navigation_state :
    forwardPage.idx = 0 ∧
    (forwardCheckJS forwardPage).1 = true ∧
    (forwardCheckJS forwardPage).2.idx = 1 ∧
    (forwardCheckJS forwardPage).2 ≠ forwardPage ∧
    (go_forward (some threeEntryPage)).page = some { threeEntryPage with idx := 2 } := by
  decide

/-- C2. For normalized coordinates in the unit square, hover and click act
at exactly the pixel (x * 1280, y * 800). -/
theorem pointer_pixel_target (x y : ℚ) (p : Page) (elem : Option FocusKind)
    (hx0 : 0 ≤ x) (hx1 : x ≤ 1) (hy0 : 0 ≤ y) (hy1 : y ≤ 1) :
    (hover_coordinate (some p) x y).actions = [.mouseMove (x * 1280) (y * 800)] ∧
    (click_coordinate (some p) x y elem).actions =
      [.mouseClick (x * 1280) (y * 800), .evalFocusAt (x * 1280) (y * 800)] := by
  refine ⟨rfl, ?_⟩
  cases elem <;> rfl

/-- Witness for C2: click(0.5, 0.5) acts at pixel (640, 400). -/
theorem pointer_pixel_target_witness :
    ((0 : ℚ) ≤ 1 / 2 ∧ (1 / 2 : ℚ) ≤ 1) ∧
    (click_coordinate (some blankPage) (1 / 2) (1 / 2) none).actions =
      [.mouseClick 640 400, .evalFocusAt 640 400] := by
  have h := pointer_pixel_target (1 / 2) (1 / 2) blankPage none
    (by norm_num) (by norm_num) (by norm_num) (by norm_num)
  refine ⟨⟨by norm_num, by norm_num⟩, ?_⟩
  rw [h.2]
  norm_num

/-- C3. With no input-like element focused, `/keyboard` returns the soft
failure `{success: false, error: ...}` (no exception), dispatches zero key
presses and leaves the page unchanged; with an input-like element focused it
dispatches exactly one key press. -/
theorem keyboard_requires_input_focus (p : Page) (key : String) :
    (isInputLike p.focused = false →
      type_keys (some p) key =
        ⟨.softFail "No input element is focused", [.evalActiveElementCheck], some p⟩ ∧
      keyPressCount (type_keys (some p) key).actions = 0) ∧
    (isInputLike p.focused = true →
      (type_keys (some p) key).resp = .ok ∧
      keyPressCount (type_keys (some p) key).actions = 1) := by
  constructor
  · intro h
    simp [type_keys, h, keyPressCount]
  · intro h
    simp [type_keys, h, keyPressCount]

/-- Witness for C3: on `blankPage` (nothing focused) typing "a" soft-fails
with zero key presses; on `inputPage` it presses exactly one key. -/
theorem keyboard_requires_input_focus_witness :
    (type_keys (some blankPage) "a" =
        ⟨.softFail "No input element is focused", [.evalActiveElementCheck],
          some blankPage⟩ ∧
      keyPressCount (type_keys (some blankPage) "a").actions = 0) ∧
    keyPressCount (type_keys (some inputPage) "a").actions = 1 :=
  ⟨(keyboard_requires_input_focus blankPage "a").1 rfl,
   ((keyboard_requires_input_focus inputPage "a").2 rfl).2⟩

/-- C4. `/back` on a history with at most one entry returns the soft failure
"No previous page in history" issuing no navigation call; with more than one
entry it issues `page.go_back(wait_until='networkidle')`. -/
theorem back_requires_history (p : Page) :
    (p.entries.length ≤ 1 →
      go_back (some p) =
        ⟨.softFail "No previous page in history", [.evalHistoryLength], some p⟩) ∧
    (1 < p.entries.length →
      go_back (some p) =
        ⟨.ok, [.evalHistoryLength, .pageGoBack true], some (pageHistoryBack p)⟩) := by
  constructor
  · intro h
    simp [go_back, Nat.not_lt.mpr h]
  · intro h
    simp [go_back, h]

/-- Witness for C4: back() on the single-entry `blankPage` soft-fails without
navigating; on the two-entry `forwardPage` it navigates back. -/
theorem back_requires_history_witness :
    go_back (some blankPage) =
      ⟨.softFail "No previous page in history", [.evalHistoryLength], some blankPage⟩ ∧
    go_back (some forwardPage) =
      ⟨.ok, [.evalHistoryLength, .pageGoBack true], some (pageHistoryBack forwardPage)⟩ :=
  ⟨(back_requires_history blankPage).1 (by decide),
   (back_requires_history forwardPage).2 (by decide)⟩

/-- C5. In every reachable state of the broadcaster system at most one frame
send has completed after the connection left the registry, and from the
liveness check the loop's successor is determined by registry membership
alone: it continues into the iteration when the connection is registered and
exits otherwise. -/
theorem broadcaster_stops_after_unregister :
    (∀ s, ReachableB s → s.sendsAfterRemoval ≤ 1) ∧
    (∀ s t, LoopStep s t → s.pc = .check →
      t = if s.member then { s with pc := .capture } else { s with pc := .exited }) := by
  constructor
  · intro s h
    exact (broadcastInv_reachable s h).1
  · intro s t st hpc
    cases st with
    | checkContinue h1 h2 => simp [h2]
    | checkExit h1 h2 => simp [h2]
    | captureStep h1 => rw [hpc] at h1; cases h1
    | sendStep h1 => rw [hpc] at h1; cases h1
    | sleepStep h1 => rw [hpc] at h1; cases h1

/-- Witness for C5: the initial state obeys the send bound, and from the
check with the connection unregistered the loop steps to `exited`. -/
theorem broadcaster_stops_after_unregister_witness :
    broadcastInit.sendsAfterRemoval ≤ 1 ∧
    (⟨.exited, false, 0⟩ : BroadcastState) =
      (if (⟨.check, false, 0⟩ : BroadcastState).member
        then { (⟨.check, false, 0⟩ : BroadcastState) with pc := .capture }
        else { (⟨.check, false, 0⟩ : BroadcastState) with pc := .exited }) :=
  ⟨broadcaster_stops_after_unregister.1 broadcastInit Relation.ReflTransGen.refl,
   broadcaster_stops_after_unregister.2 ⟨.check, false, 0⟩ ⟨.exited, false, 0⟩
     (LoopStep.checkExit _ rfl rfl) rfl⟩

/-- C6. An engine exception in any iteration (capture or send) is terminal
for that loop instance: the run ends `exitedByException` ignoring all
remaining outcomes (no retry), the failing connection is removed from the
registry, and every other connection's membership is untouched. -/
theorem loop_exception_terminal (ws : Nat) (conns : Finset Nat) (k : Nat)
    (o : IterOutcome) (rest : List IterOutcome)
    (hmem : ws ∈ conns) (hex : o = .captureRaises ∨ o = .sendRaises) :
    (screenshot_loop_run ws conns (List.replicate k .ok ++ o :: rest)).conns =
      conns.erase ws ∧
    (screenshot_loop_run ws conns (List.replicate k .ok ++ o :: rest)).exit =
      .exitedByException ∧
    ∀ c, c ≠ ws →
      (c ∈ (screenshot_loop_run ws conns (List.replicate k .ok ++ o :: rest)).conns ↔
        c ∈ conns) := by
  induction k with
  | zero =>
    rcases hex with h | h <;> subst h <;>
      simp [screenshot_loop_run, hmem, guardedUnregister, pySetRemove,
        Finset.mem_erase] <;>
      intro c hc <;> simp [hc]
  | succ k ih =>
    rw [List.replicate_succ, List.cons_append]
    simpa [screenshot_loop_run, hmem] using ih

/-- Witness for C6: connection 0 of registry {0, 1}, one good iteration then
a capture failure: the run ends by exception with 0 removed and 1 intact. -/
theorem loop_exception_terminal_witness :
    (0 : Nat) ∈ ({0, 1} : Finset Nat) ∧
    (screenshot_loop_run 0 {0, 1} (List.replicate 1 .ok ++ [.captureRaises])).conns =
      ({0, 1} : Finset Nat).erase 0 ∧
    (screenshot_loop_run 0 {0, 1} (List.replicate 1 .ok ++ [.captureRaises])).exit =
      .exitedByException ∧
    ((1 : Nat) ∈
        (screenshot_loop_run 0 {0, 1} (List.replicate 1 .ok ++ [.captureRaises])).conns ↔
      (1 : Nat) ∈ ({0, 1} : Finset Nat)) := by
  have h := loop_exception_terminal 0 {0, 1} 1 .captureRaises [] (by decide) (Or.inl rfl)
  exact ⟨by decide, h.1, h.2.1, h.2.2 1 (by decide)⟩

/-- C7 counterexample. The inter-iteration pause is `asyncio.sleep(0.03)`:
30 ms, not 33 ms, and its nominal cadence is 1/0.03 ≈ 33.3 frames per
second — not roughly 10 (not even within a generous bound of 15). -/
theorem sleep_interval_not_ten_fps :
    sleepInterval * 1000 = 30 ∧
    sleepInterval * 1000 ≠ 33 ∧
    1 / sleepInterval = 100 / 3 ∧
    ¬(1 / sleepInterval ≤ 15) := by
  norm_num [sleepInterval]

/-- C7 amended. Every pause the screenshot loop takes, in every run, is the
fixed interval `sleepInterval` = 0.03 s = 30 ms. -/
theorem loop_sleep_fixed_thirty_ms :
    sleepInterval * 1000 = 30 ∧
    ∀ (ws : Nat) (conns : Finset Nat) (outs : List IterOutcome) (q : ℚ),
      LoopEvent.sleepFor q ∈ (screenshot_loop_run ws conns outs).events →
      q = sleepInterval := by
  refine ⟨by norm_num [sleepInterval], ?_⟩
  intro ws conns outs
  induction outs with
  | nil =>
    intro q h
    simp [screenshot_loop_run] at h
  | cons o rest ih =>
    intro q h
    by_cases hm : ws ∈ conns
    · cases o with
      | captureRaises => simp [screenshot_loop_run, hm] at h
      | sendRaises => simp [screenshot_loop_run, hm] at h
      | ok =>
        simp only [screenshot_loop_run, hm, not_true_eq_false, if_false,
          List.mem_cons] at h
        rcases h with h | h | h | h
        · cases h
        · cases h
        · exact (LoopEvent.sleepFor.injEq _ _).mp h.symm |>.symm ▸ rfl
        · exact ih q h
    · simp [screenshot_loop_run, hm] at h

/-- Witness for C7's amended theorem: a run with one good iteration contains
a sleep event, and its duration is `sleepInterval`. -/
theorem loop_sleep_fixed_thirty_ms_witness :
    LoopEvent.sleepFor (3 / 100) ∈ (screenshot_loop_run 0 {0} [.ok]).events ∧
    (3 : ℚ) / 100 = sleepInterval :=
  ⟨by simp [screenshot_loop_run, sleepInterval],
   loop_sleep_fixed_thirty_ms.2 0 {0} [.ok] (3 / 100)
     (by simp [screenshot_loop_run, sleepInterval])⟩

/-- C8 counterexample. On the fully initialized state, `shutdown_event`
issues exactly the context, browser and playwright release calls: no page
release occurs even though the page handle is present, refuting "releases
the page". -/
theorem shutdown_no_page_release :
    (shutdown_event fullState).2 = [.closeContext, .closeBrowser, .stopPlaywright] ∧
    TeardownAction.closePage ∉ (shutdown_event fullState).2 ∧
    hasRes fullState .pageR = true := by
  decide

/-- C8 amended. `shutdown_event` releases the context, the browser and the
engine handle — and nothing else, in particular not the page — in reverse
acquisition order, issuing a release call exactly for each present non-page
handle; it mutates no state field, so a repeated call behaves identically. -/
theorem shutdown_release_order (s : web_appState) :
    ((shutdown_event s).2.map resOf).Sublist
      (acquisitionOrder.reverse.filter fun r => r ≠ .pageR) ∧
    (∀ r : Res, r ∈ (shutdown_event s).2.map resOf ↔ (hasRes s r = true ∧ r ≠ .pageR)) ∧
    (shutdown_event s).1 = s ∧
    shutdown_event (shutdown_event s).1 = shutdown_event s := by
  obtain ⟨pw, br, cx, pg, ac⟩ := s
  refine ⟨?_, ?_, rfl, rfl⟩
  · cases pw <;> cases br <;> cases cx <;>
      simp [shutdown_event, resOf, acquisitionOrder]
  · intro r
    cases r <;> cases pw <;> cases br <;> cases cx <;>
      simp [shutdown_event, resOf, hasRes]

/-- C9 counterexample. The removal in the `WebSocketDisconnect` handler is a
bare `set.remove`: on a registry not containing the connection it raises
`KeyError`, while the guarded idiom used on the exception paths is safe on
the same input. -/
theorem disconnect_unregister_faults_when_absent :
    disconnectUnregister 0 ∅ = none ∧ guardedUnregister 0 ∅ = some ∅ := by
  decide

/-- C9 amended. The guarded unregister idiom is idempotent: it never faults,
removes the connection, and a second application (the connection now absent)
leaves the registry exactly as the single removal did. -/
theorem guarded_unregister_idempotent (ws : Nat) (conns : Finset Nat) :
    guardedUnregister ws conns = some (conns.erase ws) ∧
    guardedUnregister ws (conns.erase ws) = some (conns.erase ws) := by
  constructor
  · by_cases h : ws ∈ conns
    · simp [guardedUnregister, pySetRemove, h]
    · simp [guardedUnregister, pySetRemove, h, Finset.erase_eq_of_not_mem h]
  · simp [guardedUnregister, pySetRemove, Finset.not_mem_erase]

/-- C10. The pointer handlers enforce no range validation: every rational
pair is accepted with `{success: true}` and translated to
(x * 1280, y * 800), so out-of-range inputs such as (-1, 2) yield targets
outside the 1280 × 800 viewport instead of a validation failure. -/
theorem pointer_no_range_validation :
    (∀ (x y : ℚ) (p : Page) (elem : Option FocusKind),
      (hover_coordinate (some p) x y).resp = .ok ∧
      (hover_coordinate (some p) x y).actions = [.mouseMove (x * 1280) (y * 800)] ∧
      (click_coordinate (some p) x y elem).resp = .okFocused elem.isSome ∧
      (click_coordinate (some p) x y elem).actions =
        [.mouseClick (x * 1280) (y * 800), .evalFocusAt (x * 1280) (y * 800)]) ∧
    (hover_coordinate (some blankPage) (-1) 2).actions = [.mouseMove (-1280) 1600] ∧
    (click_coordinate (some blankPage) 2 (-3) none).actions =
      [.mouseClick 2560 (-2400), .evalFocusAt 2560 (-2400)] := by
  refine ⟨?_, by simp [hover_coordinate]; norm_num, by simp [click_coordinate]; norm_num⟩
  intro x y p elem
  cases elem <;> simp [hover_coordinate, click_coordinate]

end BrowserBackend
